import Mathlib

/-!
Shallow embedding of `src/qiskit_aqua/algorithms/quantumalgorithm.py`
(class `QuantumAlgorithm`): backend discovery, alias resolution, execution
configuration derivation, the execute wrapper, and the random-source policy.

External collaborators (qiskit.Aer, qiskit.IBMQ, Preferences, run_circuits)
are modelled as parameters: provider listings and lookups are inputs, a
raised Python exception is an `Except.error`.  Python dictionaries with a
fixed key set are Lean structures; the job-config dictionary, whose key set
varies (the wait key may be removed), is an association list so that key
absence is observable.  A Python set is modelled as a duplicate-free list
built in insertion order (the claims about it only use membership and
occurrence counts, which do not depend on iteration order).
-/

set_option autoImplicit false

namespace QuantumAlgorithmSpec

/-- Opaque payload for the noise_params dictionary argument. -/
abbrev NoiseParams := List (String × Int)

/-- Opaque payload for a coupling map. -/
abbrev CouplingMap := List (List Nat)

/-- Opaque payload for the initial_layout dictionary argument. -/
abbrev InitialLayout := List (String × Nat)

/-- Opaque payload for the hpc_params dictionary argument. -/
abbrev HpcParams := List (String × Int)

/-- Opaque circuit collection handed to execute. -/
abbrev Circuits := List Nat

/-- Python value of the basis_gates argument and of a backend configuration
basis_gates attribute: None, a delimited string, or a list of gate names. -/
inductive BasisGatesVal where
  | noneV : BasisGatesVal
  | strV (s : String) : BasisGatesVal
  | listV (gates : List String) : BasisGatesVal
deriving DecidableEq, Repr

/-- Read-only facts a live backend handle exposes through configuration():
backend_name, simulator, local, basis_gates, and the optional coupling_map
(to_dict().get of a possibly absent key is an Option). -/
structure BackendConfigurationT where
  backend_name : String
  simulator : Bool
  is_local : Bool
  basis_gates : BasisGatesVal
  coupling_map : Option CouplingMap
deriving DecidableEq, Repr

/-- A live backend handle (BaseBackend); this layer only reads its
configuration. -/
structure Backend where
  configuration : BackendConfigurationT
deriving DecidableEq, Repr

/-- The backend argument of setup_quantum_backend: None, a symbolic name
string, or an already-live handle. -/
inductive BackendRef where
  | noneRef : BackendRef
  | nameRef (s : String) : BackendRef
  | handleRef (b : Backend) : BackendRef
deriving DecidableEq, Repr

/-- A raised Python exception: AquaError or any other exception type. -/
inductive PyError where
  | aquaError (msg : String) : PyError
  | pyException (msg : String) : PyError
deriving DecidableEq, Repr

/-- The numpy random source held by the context: the process-shared
np.random module object, or a private np.random.RandomState(seed). -/
inductive RandomSource where
  | npRandom : RandomSource
  | randomState (seed : Int) : RandomSource
deriving DecidableEq, Repr

/-- Python str.startswith: the first characters of the string, as many as
the other string has, equal that other string.  Defined over the character
lists so that it evaluates by kernel reduction. -/
def py_startswith (s p : String) : Bool :=
  s.data.take p.data.length == p.data

instance {ε α : Type} [DecidableEq ε] [DecidableEq α] :
    DecidableEq (Except ε α) := fun a b =>
  match a, b with
  | .ok x, .ok y =>
    if h : x = y then isTrue (by rw [h])
    else isFalse (by intro hc; cases hc; exact h rfl)
  | .error x, .error y =>
    if h : x = y then isTrue (by rw [h])
    else isFalse (by intro hc; cases hc; exact h rfl)
  | .ok _, .error _ => isFalse (by intro hc; cases hc)
  | .error _, .ok _ => isFalse (by intro hc; cases hc)

/-- QuantumAlgorithm.UNSUPPORTED_BACKENDS (source lines 54-55). -/
def UNSUPPORTED_BACKENDS : List String :=
  ["unitary_simulator", "clifford_simulator"]

/-- QuantumAlgorithm.EQUIVALENT_BACKENDS (source lines 57-62). -/
def EQUIVALENT_BACKENDS : List (String × String) :=
  [("statevector_simulator_py", "statevector_simulator"),
   ("statevector_simulator_sympy", "statevector_simulator"),
   ("statevector_simulator_projectq", "statevector_simulator"),
   ("qasm_simulator_py", "qasm_simulator"),
   ("qasm_simulator_projectq", "qasm_simulator")]

/-- EQUIVALENT_BACKENDS.get(backend, backend): canonical name when the
name is an alias key, the name itself otherwise (source line 167). -/
def equivalent_backends_get (backend : String) : String :=
  match EQUIVALENT_BACKENDS.lookup backend with
  | some canonical => canonical
  | none => backend

/-- The per-aer-backend supported test of the discovery loop
(source lines 284-288): false exactly when the name starts with an
UNSUPPORTED_BACKENDS entry. -/
def supported_backend_name (backend : String) : Bool :=
  UNSUPPORTED_BACKENDS.all (fun unsupported => !(py_startswith backend unsupported))

/-- Adding one element to a Python set modelled as a duplicate-free list:
a no-op when already present, appended otherwise. -/
def set_add (s : List String) (x : String) : List String :=
  if x ∈ s then s else s ++ [x]

/-- The local half of discovery (source lines 280-291): fold the aer
backend names into a set, skipping names with an unsupported prefix. -/
def local_supported_set (aer_backends : List String) : List String :=
  aer_backends.foldl
    (fun backends aer_backend =>
      if supported_backend_name aer_backend then set_add backends aer_backend
      else backends) []

/-- QuantumAlgorithm.register_and_get_operational_backends
(source lines 253-293).  The whole credential handshake plus remote
listing (lines 260-278) is one fallible collaborator step: an
Except.error is any exception raised inside the try block, which the
except clause turns into an empty remote listing; an Except.ok carries
the ibmq backend names listed.  The result is list(backends) +
ibmq_backends: the local set as a list, concatenated with the remote
names (line 293). -/
def register_and_get_operational_backends
    (remote_backends : Except String (List String))
    (aer_backends : List String) : List String :=
  let ibmq_backends :=
    match remote_backends with
    | .ok names => names
    | .error _ => []
  local_supported_set aer_backends ++ ibmq_backends

/-- The qjob-config dictionary: keys mapped to a possibly-None number.
An absent key is an absent entry, distinct from a key holding None. -/
abbrev QJobConfig := List (String × Option Int)

/-- dict.pop(key, None): remove the entry for the key if present
(source line 198). -/
def dict_pop (d : QJobConfig) (key : String) : QJobConfig :=
  d.filter (fun kv => kv.1 ≠ key)

/-- Python repr of a plain gate-name string: the name between single
quotes (faithful for names without quotes, backslashes or control
characters, which is all gate names). -/
def py_repr_str (s : String) : String :=
  String.singleton (Char.ofNat 39) ++ s ++ String.singleton (Char.ofNat 39)

/-- Python str() of a list of strings, as produced by str(basis_gates) on
source line 205: the element reprs joined by comma-space inside square
brackets. -/
def py_str_of_str_list (gates : List String) : String :=
  "[" ++ String.intercalate ", " (gates.map py_repr_str) ++ "]"

/-- The serialization the spec describes for a basis-gates sequence: the
gate names joined by commas.  This definition follows the words of the
spec, not the source, and exists to be compared with py_str_of_str_list. -/
def spec_comma_joined (gates : List String) : String :=
  String.intercalate "," gates

/-- The execute-config dictionary built on source lines 207-216.  Its key
set is fixed, so it is a structure; noise_params is the value stored
under the config sub-dictionary. -/
structure ExecuteConfig where
  shots : Nat
  skip_transpiler : Bool
  noise_params : Option NoiseParams
  basis_gates : BasisGatesVal
  coupling_map : Option CouplingMap
  initial_layout : Option InitialLayout
  max_credits : Int
  seed : Option Int
  qobj_id : Option Nat
  hpc : Option HpcParams
deriving DecidableEq, Repr

/-- The per-instance state of a QuantumAlgorithm: the fields set in
init (source lines 73-81).  execute_config is None before setup has
run (the empty initial dictionary) and holds the derived configuration
afterwards. -/
structure AlgoState where
  backend : Option Backend
  execute_config : Option ExecuteConfig
  qjob_config : QJobConfig
  random_seed : Option Int
  random : Option RandomSource
  show_circuit_summary : Bool
  has_shared_circuits : Bool
deriving DecidableEq, Repr

/-- The state produced by init (source lines 73-81). -/
def initial_state : AlgoState :=
  { backend := none
    execute_config := none
    qjob_config := []
    random_seed := none
    random := none
    show_circuit_summary := false
    has_shared_circuits := false }

/-- random_seed setter (source lines 88-91). -/
def set_random_seed (st : AlgoState) (seed : Option Int) : AlgoState :=
  { st with random_seed := seed }

/-- The random property (source lines 93-101): on first access create the
source (the shared np.random module when no seed is stored, a private
RandomState seeded with the stored seed otherwise) and cache it; on
later accesses return the cached source unchanged.  Returns the source
and the possibly-updated state. -/
def random_access (st : AlgoState) : RandomSource × AlgoState :=
  match st.random with
  | some r => (r, st)
  | none =>
    let r :=
      match st.random_seed with
      | none => RandomSource.npRandom
      | some seed => RandomSource.randomState seed
    (r, { st with random := some r })

/-- is_statevector_backend (source lines 108-118): true when the handle
is present and its configured name starts with the statevector marker. -/
def is_statevector_backend (backend : Option Backend) : Bool :=
  match backend with
  | some b => py_startswith b.configuration.backend_name "statevector"
  | none => false

/-- enable_circuit_summary (source lines 132-134). -/
def enable_circuit_summary (st : AlgoState) : AlgoState :=
  { st with show_circuit_summary := true }

/-- disable_circuit_summary (source lines 136-138). -/
def disable_circuit_summary (st : AlgoState) : AlgoState :=
  { st with show_circuit_summary := false }

/-- The external providers setup and discovery consult: the aer backend
name listing and the remote listing outcome feed discovery; aer_get_backend
returns none on KeyError (source line 180); ibmq_get_backend folds the
Preferences lookup into the collaborator, raises as Except.error, and
Except.ok none is a returned None handle (source lines 181-185). -/
structure ProviderEnv where
  aer_backends : List String
  remote_backends : Except String (List String)
  aer_get_backend : String → Option Backend
  ibmq_get_backend : String → Except String (Option Backend)

/-- The backend-resolution chain of setup (source lines 174-189) for a
name reference: aer lookup first, on KeyError the ibmq lookup (whose
exceptions propagate), and a missing handle is an AquaError. -/
def resolve_backend_name (env : ProviderEnv) (backend : String) :
    Except PyError Backend :=
  match env.aer_get_backend backend with
  | some b => .ok b
  | none =>
    match env.ibmq_get_backend backend with
    | .error e => .error (.pyException e)
    | .ok (some b) => .ok b
    | .ok none =>
      .error (.aquaError ("Missing algorithm backend " ++ backend))

/-- The basis-gates defaulting step (source lines 201-202): the backend
configuration value stands in when the request is None. -/
def resolved_basis_gates (requested dflt : BasisGatesVal) : BasisGatesVal :=
  match requested with
  | .noneV => dflt
  | v => v

/-- The basis-gates stringification step (source lines 204-205): a
list-shaped value becomes its Python str form; any other value passes
through untouched. -/
def serialized_basis_gates (v : BasisGatesVal) : BasisGatesVal :=
  match v with
  | .listV gates => .strV (py_str_of_str_list gates)
  | v => v

/-- The derivation and storage steps of setup once a live handle is in
hand (source lines 191-216), applied to a state whose qjob_config was
already set on lines 171-172: store the handle, override shots for a
statevector backend, drop noise params for a non-simulator, drop the
wait entry for a local backend, default the coupling map and basis
gates from the backend, stringify a list-shaped basis-gates value, and
store the execute config. -/
def apply_backend_config (st : AlgoState) (my_backend : Backend)
    (shots : Nat) (skip_transpiler : Bool)
    (noise_params : Option NoiseParams) (coupling_map : Option CouplingMap)
    (initial_layout : Option InitialLayout) (hpc_params : Option HpcParams)
    (basis_gates : BasisGatesVal) (max_credits : Int) : AlgoState :=
  let st1 := { st with backend := some my_backend }
  let shots := if is_statevector_backend (some my_backend) then 1 else shots
  let noise_params :=
    if my_backend.configuration.simulator then noise_params else none
  let st2 :=
    if my_backend.configuration.is_local then
      { st1 with qjob_config := dict_pop st1.qjob_config "wait" }
    else st1
  let coupling_map :=
    match coupling_map with
    | some cm => some cm
    | none => my_backend.configuration.coupling_map
  let basis_gates :=
    resolved_basis_gates basis_gates my_backend.configuration.basis_gates
  let basis_gates := serialized_basis_gates basis_gates
  let ec : ExecuteConfig :=
    { shots := shots
      skip_transpiler := skip_transpiler
      noise_params := noise_params
      basis_gates := basis_gates
      coupling_map := coupling_map
      initial_layout := initial_layout
      max_credits := max_credits
      seed := st.random_seed
      qobj_id := none
      hpc := hpc_params }
  { st2 with execute_config := some ec }

/-- setup_quantum_backend (source lines 140-222).  A None reference is an
AquaError; a name reference is validated through the alias table against
the freshly discovered operational backends; the qjob-config dictionary
is then stored; a handle reference is used as is while a name is resolved
through the providers; finally the capability-driven derivation runs.  A
raised error is the Except.error. -/
def setup_quantum_backend (env : ProviderEnv) (st : AlgoState)
    (backend : BackendRef)
    (shots : Nat) (skip_transpiler : Bool)
    (noise_params : Option NoiseParams) (coupling_map : Option CouplingMap)
    (initial_layout : Option InitialLayout) (hpc_params : Option HpcParams)
    (basis_gates : BasisGatesVal) (max_credits : Int)
    (timeout : Option Int) (wait : Int) : Except PyError AlgoState :=
  match backend with
  | .noneRef => .error (.aquaError "Missing algorithm backend")
  | ref =>
    let validated : Bool :=
      match ref with
      | .nameRef n =>
        equivalent_backends_get n ∈
          register_and_get_operational_backends env.remote_backends
            env.aer_backends
      | _ => true
    if validated then
      let st1 :=
        { st with qjob_config := [("timeout", timeout), ("wait", some wait)] }
      let resolved : Except PyError Backend :=
        match ref with
        | .handleRef b => .ok b
        | .nameRef n => resolve_backend_name env n
        | .noneRef => .error (.aquaError "Missing algorithm backend")
      match resolved with
      | .error e => .error e
      | .ok my_backend =>
        .ok (apply_backend_config st1 my_backend shots skip_transpiler
          noise_params coupling_map initial_layout hpc_params basis_gates
          max_credits)
    else
      .error (.aquaError
        "This backend is not operational for the quantum algorithm")

/-- execute (source lines 232-251).  The run_circuits collaborator gets
the circuits, the stored backend, execute config, qjob config, the
current summary flag and the shared-circuits flag; when it returns a
result the summary flag, if set, is disabled; when it raises, the
exception propagates with the state untouched. -/
def execute {ρ : Type}
    (run_circuits : Circuits → Option Backend → Option ExecuteConfig →
      QJobConfig → Bool → Bool → Except String ρ)
    (circuits : Circuits) (st : AlgoState) :
    Except String ρ × AlgoState :=
  match run_circuits circuits st.backend st.execute_config st.qjob_config
      st.show_circuit_summary st.has_shared_circuits with
  | .error e => (.error e, st)
  | .ok result =>
    let st1 :=
      if st.show_circuit_summary then disable_circuit_summary st else st
    (.ok result, st1)

/-! Concrete fixtures used by counterexamples and witnesses. -/

/-- A provider environment with no backends at all; setup with an explicit
handle never consults it. -/
def plain_env : ProviderEnv :=
  { aer_backends := []
    remote_backends := .ok []
    aer_get_backend := fun _ => none
    ibmq_get_backend := fun _ => .ok none }

/-- A local statevector simulator handle. -/
def sv_backend : Backend :=
  { configuration :=
    { backend_name := "statevector_simulator"
      simulator := true
      is_local := true
      basis_gates := .strV "u1,u2,u3,cx,id"
      coupling_map := none } }

/-- The context state a successful setup with sv_backend and 4096
requested shots produces. -/
def sv_setup_state : AlgoState :=
  apply_backend_config
    { initial_state with qjob_config := [("timeout", none), ("wait", some 5)] }
    sv_backend 4096 false none none none none .noneV 10

/-- A local qasm simulator handle whose configured basis gates are a
list. -/
def list_gates_backend : Backend :=
  { configuration :=
    { backend_name := "qasm_simulator"
      simulator := true
      is_local := true
      basis_gates := .listV ["u1", "u2"]
      coupling_map := none } }

/-- The context state a successful setup with list_gates_backend
produces. -/
def lg_setup_state : AlgoState :=
  apply_backend_config
    { initial_state with qjob_config := [("timeout", none), ("wait", some 5)] }
    list_gates_backend 1024 false none none none none .noneV 10

/-- The live handle the aer provider hands out for the name
statevector_simulator_py. -/
def alias_backend_py : Backend :=
  { configuration :=
    { backend_name := "statevector_simulator_py"
      simulator := true
      is_local := true
      basis_gates := .strV "u1,u2,u3,cx,id"
      coupling_map := none } }

/-- The live handle the aer provider hands out for the name
statevector_simulator. -/
def canonical_backend_sv : Backend :=
  { configuration :=
    { backend_name := "statevector_simulator"
      simulator := true
      is_local := true
      basis_gates := .strV "u1,u2,u3,cx,id"
      coupling_map := none } }

/-- A provider environment whose aer provider lists the canonical
simulators and resolves the python statevector alias to its own distinct
backend object, as the real aer provider does. -/
def alias_env : ProviderEnv :=
  { aer_backends := ["statevector_simulator", "qasm_simulator"]
    remote_backends := .ok []
    aer_get_backend := fun n =>
      if n = "statevector_simulator_py" then some alias_backend_py
      else if n = "statevector_simulator" then some canonical_backend_sv
      else none
    ibmq_get_backend := fun _ => .ok none }

/-- A circuit runner that always raises. -/
def failing_runner : Circuits → Option Backend → Option ExecuteConfig →
    QJobConfig → Bool → Bool → Except String Nat :=
  fun _ _ _ _ _ _ => .error "runner failure"

/-- A circuit runner that always returns a result. -/
def ok_runner : Circuits → Option Backend → Option ExecuteConfig →
    QJobConfig → Bool → Bool → Except String Nat :=
  fun _ _ _ _ _ _ => .ok 0

/-! Helper lemmas about the discovery fold and the setup pipeline. -/

/-- Membership in a set after adding one element. -/
theorem set_add_mem (s : List String) (x y : String) :
    y ∈ set_add s x ↔ y ∈ s ∨ y = x := by
  unfold set_add
  by_cases hx : x ∈ s
  · rw [if_pos hx]
    exact ⟨Or.inl, fun h => h.elim id (fun he => he ▸ hx)⟩
  · rw [if_neg hx, List.mem_append, List.mem_singleton]

/-- Adding an element keeps the set duplicate-free. -/
theorem set_add_nodup (s : List String) (x : String) (h : s.Nodup) :
    (set_add s x).Nodup := by
  unfold set_add
  by_cases hx : x ∈ s
  · rwa [if_pos hx]
  · rw [if_neg hx]
    refine List.Nodup.append h (List.nodup_singleton x) ?_
    intro a ha hax
    rw [List.mem_singleton] at hax
    exact hx (hax ▸ ha)

/-- Membership in the discovery fold over the aer names, for an arbitrary
accumulator. -/
theorem local_fold_mem (aer : List String) (acc : List String) (y : String) :
    y ∈ aer.foldl
      (fun backends aer_backend =>
        if supported_backend_name aer_backend then set_add backends aer_backend
        else backends) acc ↔
      y ∈ acc ∨ (y ∈ aer ∧ supported_backend_name y = true) := by
  induction aer generalizing acc with
  | nil => simp
  | cons b rest ih =>
    rw [List.foldl_cons]
    by_cases hb : supported_backend_name b = true
    · rw [if_pos hb, ih, set_add_mem]
      constructor
      · rintro ((hy | rfl) | ⟨hy, hs⟩)
        · exact Or.inl hy
        · exact Or.inr ⟨List.mem_cons_self _ _, hb⟩
        · exact Or.inr ⟨List.mem_cons_of_mem _ hy, hs⟩
      · rintro (hy | ⟨hy, hs⟩)
        · exact Or.inl (Or.inl hy)
        · rcases List.mem_cons.mp hy with rfl | hy2
          · exact Or.inl (Or.inr rfl)
          · exact Or.inr ⟨hy2, hs⟩
    · rw [if_neg hb, ih]
      constructor
      · rintro (hy | ⟨hy, hs⟩)
        · exact Or.inl hy
        · exact Or.inr ⟨List.mem_cons_of_mem _ hy, hs⟩
      · rintro (hy | ⟨hy, hs⟩)
        · exact Or.inl hy
        · rcases List.mem_cons.mp hy with rfl | hy2
          · exact absurd hs hb
          · exact Or.inr ⟨hy2, hs⟩

/-- The discovery fold keeps the accumulator duplicate-free. -/
theorem local_fold_nodup (aer : List String) (acc : List String)
    (h : acc.Nodup) :
    (aer.foldl
      (fun backends aer_backend =>
        if supported_backend_name aer_backend then set_add backends aer_backend
        else backends) acc).Nodup := by
  induction aer generalizing acc with
  | nil => simpa using h
  | cons b rest ih =>
    rw [List.foldl_cons]
    by_cases hb : supported_backend_name b = true
    · rw [if_pos hb]
      exact ih _ (set_add_nodup _ _ h)
    · rw [if_neg hb]
      exact ih _ h

/-- A name is in the filtered local set exactly when the local provider
lists it and no unsupported prefix matches. -/
theorem local_supported_set_mem (aer : List String) (y : String) :
    y ∈ local_supported_set aer ↔
      y ∈ aer ∧ supported_backend_name y = true := by
  unfold local_supported_set
  rw [local_fold_mem]
  simp

/-- The filtered local set is duplicate-free. -/
theorem local_supported_set_nodup (aer : List String) :
    (local_supported_set aer).Nodup :=
  local_fold_nodup aer [] List.nodup_nil

/-- Occurrence count in the filtered local set: one when listed and
supported, zero otherwise. -/
theorem local_supported_set_count (aer : List String) (y : String) :
    (local_supported_set aer).count y =
      if y ∈ aer ∧ supported_backend_name y = true then 1 else 0 := by
  by_cases h : y ∈ aer ∧ supported_backend_name y = true
  · rw [if_pos h]
    exact List.count_eq_one_of_mem (local_supported_set_nodup aer)
      ((local_supported_set_mem aer y).mpr h)
  · rw [if_neg h]
    exact List.count_eq_zero_of_not_mem
      (fun hm => h ((local_supported_set_mem aer y).mp hm))

/-- Membership in the discovery result when the remote listing succeeds. -/
theorem register_mem_ok (remote : List String) (aer : List String)
    (y : String) :
    y ∈ register_and_get_operational_backends (.ok remote) aer ↔
      (y ∈ aer ∧ supported_backend_name y = true) ∨ y ∈ remote := by
  unfold register_and_get_operational_backends
  rw [List.mem_append, local_supported_set_mem]

/-- A remote exception leaves exactly the filtered local set. -/
theorem register_error_eq (e : String) (aer : List String) :
    register_and_get_operational_backends (.error e) aer =
      local_supported_set aer := by
  unfold register_and_get_operational_backends
  simp

/-- Occurrence count in the discovery result when the remote listing
succeeds: the local contribution is capped at one, the remote listing
contributes its own multiplicity on top. -/
theorem register_count_ok (remote : List String) (aer : List String)
    (y : String) :
    (register_and_get_operational_backends (.ok remote) aer).count y =
      (if y ∈ aer ∧ supported_backend_name y = true then 1 else 0) +
        remote.count y := by
  unfold register_and_get_operational_backends
  rw [List.count_append, local_supported_set_count]

/-- The state stored by the derivation step carries the resolved handle. -/
theorem apply_backend_config_backend (st : AlgoState) (b : Backend)
    (sh : Nat) (sk : Bool) (np : Option NoiseParams) (cm : Option CouplingMap)
    (il : Option InitialLayout) (hp : Option HpcParams) (bg : BasisGatesVal)
    (mc : Int) :
    (apply_backend_config st b sh sk np cm il hp bg mc).backend = some b := by
  simp only [apply_backend_config]
  split <;> rfl

/-- The execute config stored by the derivation step, field by field. -/
theorem apply_backend_config_execute (st : AlgoState) (b : Backend)
    (sh : Nat) (sk : Bool) (np : Option NoiseParams) (cm : Option CouplingMap)
    (il : Option InitialLayout) (hp : Option HpcParams) (bg : BasisGatesVal)
    (mc : Int) :
    (apply_backend_config st b sh sk np cm il hp bg mc).execute_config =
      some
        { shots := if is_statevector_backend (some b) then 1 else sh
          skip_transpiler := sk
          noise_params := if b.configuration.simulator then np else none
          basis_gates :=
            serialized_basis_gates
              (resolved_basis_gates bg b.configuration.basis_gates)
          coupling_map :=
            match cm with
            | some m => some m
            | none => b.configuration.coupling_map
          initial_layout := il
          max_credits := mc
          seed := st.random_seed
          qobj_id := none
          hpc := hp } := by
  simp only [apply_backend_config]

/-- The qjob config stored by the derivation step: the wait entry is
removed exactly for a local backend. -/
theorem apply_backend_config_qjob (st : AlgoState) (b : Backend)
    (sh : Nat) (sk : Bool) (np : Option NoiseParams) (cm : Option CouplingMap)
    (il : Option InitialLayout) (hp : Option HpcParams) (bg : BasisGatesVal)
    (mc : Int) :
    (apply_backend_config st b sh sk np cm il hp bg mc).qjob_config =
      if b.configuration.is_local then dict_pop st.qjob_config "wait"
      else st.qjob_config := by
  simp only [apply_backend_config]
  split <;> rfl

/-- Inversion for a successful setup: the result is the derivation step
applied, for some resolved handle, to the state whose qjob dictionary was
set on source lines 171-172. -/
theorem setup_ok_inv (env : ProviderEnv) (st : AlgoState) (ref : BackendRef)
    (sh : Nat) (sk : Bool) (np : Option NoiseParams) (cm : Option CouplingMap)
    (il : Option InitialLayout) (hp : Option HpcParams) (bg : BasisGatesVal)
    (mc : Int) (t : Option Int) (w : Int) (st' : AlgoState)
    (h : setup_quantum_backend env st ref sh sk np cm il hp bg mc t w =
      .ok st') :
    ∃ b : Backend,
      st' = apply_backend_config
        { st with qjob_config := [("timeout", t), ("wait", some w)] } b
        sh sk np cm il hp bg mc := by
  cases ref with
  | noneRef => exact absurd h (by simp [setup_quantum_backend])
  | nameRef n =>
    rw [setup_quantum_backend] at h
    split at h
    · dsimp only at h
      split at h
      · exact absurd h (by simp)
      · rename_i b heq
        exact ⟨b, (Except.ok.inj h).symm⟩
    · exact absurd h (by simp)
  | handleRef b =>
    rw [setup_quantum_backend] at h
    simp at h
    exact ⟨b, h.symm⟩

/-- A name reference whose canonicalized form is operational and that the
aer provider resolves leads setup to store exactly the aer provider's
handle for that name. -/
theorem setup_name_resolves (env : ProviderEnv) (st : AlgoState) (n : String)
    (b : Backend)
    (hv : equivalent_backends_get n ∈
      register_and_get_operational_backends env.remote_backends
        env.aer_backends)
    (hb : env.aer_get_backend n = some b)
    (sh : Nat) (sk : Bool) (np : Option NoiseParams) (cm : Option CouplingMap)
    (il : Option InitialLayout) (hp : Option HpcParams) (bg : BasisGatesVal)
    (mc : Int) (t : Option Int) (w : Int) :
    (setup_quantum_backend env st (.nameRef n) sh sk np cm il hp bg mc t
        w).map (fun s => s.backend) = .ok (some b) := by
  have hv' : decide (equivalent_backends_get n ∈
      register_and_get_operational_backends env.remote_backends
        env.aer_backends) = true := decide_eq_true hv
  simp only [setup_quantum_backend, resolve_backend_name, hb, hv', if_true,
    Except.map]
  rw [apply_backend_config_backend]

/-! Theorems for the claims. -/

/-- Claim C4 counterexample: when both the local and the remote provider
report qasm_simulator, the name occurs twice in the discovery result, so
a name reported by both providers does occur more than once. -/
theorem discovery_duplicate_counterexample :
    (register_and_get_operational_backends (.ok ["qasm_simulator"])
      ["qasm_simulator"]).count "qasm_simulator" = 2 := by
  decide

/-- Claim C4 (amended): membership in the discovery result is the set
union of the filtered local names and the remote names, but the result is
the concatenation of the duplicate-free local set with the remote listing
as given: a name contributes at most once from the local side plus its
full remote multiplicity, so a name reported by both providers occurs
more than once. -/
theorem discovery_union_amended (remote : List String) (aer : List String)
    (y : String) :
    (y ∈ register_and_get_operational_backends (.ok remote) aer ↔
      (y ∈ aer ∧ supported_backend_name y = true) ∨ y ∈ remote) ∧
    (register_and_get_operational_backends (.ok remote) aer).count y =
      (if y ∈ aer ∧ supported_backend_name y = true then 1 else 0) +
        remote.count y :=
  ⟨register_mem_ok remote aer y, register_count_ok remote aer y⟩

/-- Claim C6 counterexample: unitary_simulator carries an unsupported
prefix, yet when the remote provider reports it, it appears in the
discovery result: the unsupported filter is applied to the local names
only. -/
theorem unsupported_remote_counterexample :
    (∃ u ∈ UNSUPPORTED_BACKENDS, py_startswith "unitary_simulator" u = true) ∧
    "unitary_simulator" ∈
      register_and_get_operational_backends (.ok ["unitary_simulator"]) [] := by
  decide

/-- Claim C6 (amended): a name with an unsupported prefix is excluded from
the local contribution to discovery, so it appears in the result exactly
when the remote listing reports it, and never when the remote step
raised. -/
theorem unsupported_local_only_amended (remote : List String)
    (aer : List String) (y : String)
    (h : supported_backend_name y = false) :
    (y ∈ register_and_get_operational_backends (.ok remote) aer ↔
      y ∈ remote) ∧
    (∀ e : String, y ∉ register_and_get_operational_backends (.error e) aer) := by
  constructor
  · rw [register_mem_ok]
    constructor
    · rintro (⟨_, hs⟩ | hr)
      · rw [h] at hs
        exact absurd hs (by decide)
      · exact hr
    · exact Or.inr
  · intro e hm
    rw [register_error_eq] at hm
    rcases (local_supported_set_mem aer y).mp hm with ⟨_, hs⟩
    rw [h] at hs
    exact absurd hs (by decide)

/-- Claim C6 amended witness: a local backend named unitary_simulator is
kept out of the discovery result. -/
theorem unsupported_local_only_amended_witness :
    "unitary_simulator" ∉
      register_and_get_operational_backends (.ok [])
        ["unitary_simulator", "qasm_simulator"] := by
  intro hm
  exact absurd
    ((unsupported_local_only_amended [] ["unitary_simulator", "qasm_simulator"]
      "unitary_simulator" (by decide)).1.mp hm) (by decide)

/-- Claim C7: when the credential handshake or remote listing raises, the
exception is absorbed inside discovery, which returns exactly the local
names surviving the unsupported filter, with no remote contribution. -/
theorem discovery_resilience (e : String) (aer : List String) (y : String) :
    register_and_get_operational_backends (.error e) aer =
      local_supported_set aer ∧
    (y ∈ register_and_get_operational_backends (.error e) aer ↔
      y ∈ aer ∧ supported_backend_name y = true) :=
  ⟨register_error_eq e aer, by
    rw [register_error_eq]
    exact local_supported_set_mem aer y⟩

/-- Claim C5: a setup call that completes with a resolved statevector
backend stores an execute config whose shots is one, whatever shot count
was requested. -/
theorem statevector_shots_one (env : ProviderEnv) (st : AlgoState)
    (ref : BackendRef) (sh : Nat) (sk : Bool) (np : Option NoiseParams)
    (cm : Option CouplingMap) (il : Option InitialLayout)
    (hp : Option HpcParams) (bg : BasisGatesVal) (mc : Int) (t : Option Int)
    (w : Int) (st' : AlgoState) (b : Backend)
    (hok : setup_quantum_backend env st ref sh sk np cm il hp bg mc t w =
      .ok st')
    (hb : st'.backend = some b)
    (hsv : is_statevector_backend (some b) = true) :
    st'.execute_config.map (fun ec => ec.shots) = some 1 := by
  rcases setup_ok_inv env st ref sh sk np cm il hp bg mc t w st' hok
    with ⟨b0, rfl⟩
  rw [apply_backend_config_backend] at hb
  obtain rfl : b0 = b := Option.some.inj hb
  rw [apply_backend_config_execute]
  simp [hsv]

/-- Claim C5 witness: setup with a statevector handle and 4096 requested
shots stores one shot. -/
theorem statevector_shots_one_witness :
    sv_setup_state.execute_config.map (fun ec => ec.shots) = some 1 :=
  statevector_shots_one plain_env initial_state (.handleRef sv_backend) 4096
    false none none none none .noneV 10 none 5 sv_setup_state sv_backend
    (by decide) (by decide) (by decide)

/-- Claim C8: after a completed setup, the stored qjob dictionary has no
wait entry at all when the resolved backend is local, and carries the
caller-supplied wait value when it is not. -/
theorem local_wait_drop (env : ProviderEnv) (st : AlgoState)
    (ref : BackendRef) (sh : Nat) (sk : Bool) (np : Option NoiseParams)
    (cm : Option CouplingMap) (il : Option InitialLayout)
    (hp : Option HpcParams) (bg : BasisGatesVal) (mc : Int) (t : Option Int)
    (w : Int) (st' : AlgoState) (b : Backend)
    (hok : setup_quantum_backend env st ref sh sk np cm il hp bg mc t w =
      .ok st')
    (hb : st'.backend = some b) :
    (b.configuration.is_local = true →
      st'.qjob_config.lookup "wait" = none) ∧
    (b.configuration.is_local = false →
      st'.qjob_config.lookup "wait" = some (some w)) := by
  rcases setup_ok_inv env st ref sh sk np cm il hp bg mc t w st' hok
    with ⟨b0, rfl⟩
  rw [apply_backend_config_backend] at hb
  obtain rfl : b0 = b := Option.some.inj hb
  rw [apply_backend_config_qjob]
  constructor
  · intro hl
    rw [if_pos hl]
    rfl
  · intro hl
    rw [if_neg (by simp [hl])]
    rfl

/-- Claim C8 witness: setup with a local statevector handle leaves no wait
entry in the stored qjob dictionary. -/
theorem local_wait_drop_witness :
    sv_setup_state.qjob_config.lookup "wait" = none :=
  (local_wait_drop plain_env initial_state (.handleRef sv_backend) 4096
    false none none none none .noneV 10 none 5 sv_setup_state sv_backend
    (by decide) (by decide)).1 (by decide)

/-- Claim C3 counterexample: when the resolved basis gates are the list
of the names u1 and u2, the stored value is the Python str form of that
list, which is not the comma-joined string of the gate names (with or
without a space after each comma). -/
theorem basis_gates_comma_join_counterexample :
    (setup_quantum_backend plain_env initial_state
        (.handleRef list_gates_backend) 1024 false none none none none
        .noneV 10 none 5).map
      (fun s => s.execute_config.map (fun ec => ec.basis_gates)) =
        .ok (some (.strV (py_str_of_str_list ["u1", "u2"]))) ∧
    py_str_of_str_list ["u1", "u2"] ≠ spec_comma_joined ["u1", "u2"] ∧
    py_str_of_str_list ["u1", "u2"] ≠ String.intercalate ", " ["u1", "u2"] := by
  decide

/-- Claim C3 (amended): when the resolved basis-gates value is a list of
gate names, the value stored in the execute config is the Python str
rendering of that list: the names between single quotes, separated by
comma-space, inside square brackets. -/
theorem basis_gates_py_str_amended (env : ProviderEnv) (st : AlgoState)
    (ref : BackendRef) (sh : Nat) (sk : Bool) (np : Option NoiseParams)
    (cm : Option CouplingMap) (il : Option InitialLayout)
    (hp : Option HpcParams) (bg : BasisGatesVal) (mc : Int) (t : Option Int)
    (w : Int) (st' : AlgoState) (b : Backend) (gates : List String)
    (hok : setup_quantum_backend env st ref sh sk np cm il hp bg mc t w =
      .ok st')
    (hb : st'.backend = some b)
    (hres : resolved_basis_gates bg b.configuration.basis_gates =
      .listV gates) :
    st'.execute_config.map (fun ec => ec.basis_gates) =
      some (.strV (py_str_of_str_list gates)) := by
  rcases setup_ok_inv env st ref sh sk np cm il hp bg mc t w st' hok
    with ⟨b0, rfl⟩
  rw [apply_backend_config_backend] at hb
  obtain rfl : b0 = b := Option.some.inj hb
  rw [apply_backend_config_execute]
  simp [hres, serialized_basis_gates]

/-- Claim C3 amended witness: setup with a backend whose configured basis
gates are the list of u1 and u2 stores the Python str form of that
list. -/
theorem basis_gates_py_str_amended_witness :
    lg_setup_state.execute_config.map (fun ec => ec.basis_gates) =
      some (.strV (py_str_of_str_list ["u1", "u2"])) :=
  basis_gates_py_str_amended plain_env initial_state
    (.handleRef list_gates_backend) 1024 false none none none none .noneV 10
    none 5 lg_setup_state list_gates_backend ["u1", "u2"] (by decide)
    (by decide) (by decide)

/-- Claim C2 counterexample: against an aer provider that resolves the
python statevector alias to its own backend object, setup with the alias
and setup with the canonical name both succeed but store different
backends, and the alias call's backend is not the canonical one. -/
theorem alias_same_backend_counterexample :
    (setup_quantum_backend alias_env initial_state
        (.nameRef "statevector_simulator_py") 1024 false none none none none
        .noneV 10 none 5).map (fun s => s.backend) =
      .ok (some alias_backend_py) ∧
    (setup_quantum_backend alias_env initial_state
        (.nameRef "statevector_simulator") 1024 false none none none none
        .noneV 10 none 5).map (fun s => s.backend) =
      .ok (some canonical_backend_sv) ∧
    alias_backend_py ≠ canonical_backend_sv ∧
    alias_backend_py.configuration.backend_name ≠ "statevector_simulator" := by
  decide

/-- Claim C2 (amended): for every alias and its canonical name in the
table, when the canonical name is operational both the alias and the
canonical name pass setup validation, because the membership test is made
on the canonical name in both cases; the live handle is then obtained by
looking up the originally supplied name with the providers, so each call
stores whatever backend its own name resolves to, which is the same
canonical backend only if the provider maps the alias to it. -/
theorem alias_validation_amended (a c : String)
    (hac : (a, c) ∈ EQUIVALENT_BACKENDS)
    (env : ProviderEnv) (st : AlgoState) (ba bc : Backend)
    (hopc : c ∈ register_and_get_operational_backends env.remote_backends
      env.aer_backends)
    (ha : env.aer_get_backend a = some ba)
    (hc : env.aer_get_backend c = some bc)
    (sh : Nat) (sk : Bool) (np : Option NoiseParams) (cm : Option CouplingMap)
    (il : Option InitialLayout) (hp : Option HpcParams) (bg : BasisGatesVal)
    (mc : Int) (t : Option Int) (w : Int) :
    (setup_quantum_backend env st (.nameRef a) sh sk np cm il hp bg mc t
        w).map (fun s => s.backend) = .ok (some ba) ∧
    (setup_quantum_backend env st (.nameRef c) sh sk np cm il hp bg mc t
        w).map (fun s => s.backend) = .ok (some bc) := by
  simp only [EQUIVALENT_BACKENDS, List.mem_cons, List.not_mem_nil, or_false,
    Prod.mk.injEq] at hac
  rcases hac with ⟨rfl, rfl⟩ | ⟨rfl, rfl⟩ | ⟨rfl, rfl⟩ | ⟨rfl, rfl⟩ |
    ⟨rfl, rfl⟩ <;>
    exact ⟨setup_name_resolves env st _ ba (by exact hopc) ha sh sk np cm il
        hp bg mc t w,
      setup_name_resolves env st _ bc (by exact hopc) hc sh sk np cm il hp bg
        mc t w⟩

/-- Claim C2 amended witness: the python statevector alias passes
validation against an operational set containing only the canonical names
and resolves to the aer provider's handle for the alias name. -/
theorem alias_validation_amended_witness :
    (setup_quantum_backend alias_env initial_state
        (.nameRef "statevector_simulator_py") 2048 false none none none none
        .noneV 10 none 5).map (fun s => s.backend) =
      .ok (some alias_backend_py) :=
  (alias_validation_amended "statevector_simulator_py" "statevector_simulator"
    (by decide) alias_env initial_state alias_backend_py canonical_backend_sv
    (by decide) rfl rfl 2048 false none none none none .noneV 10 none 5).1

/-- Claim C1 counterexample: with the summary flag armed and a runner that
raises, the exception propagates and the flag still reads true afterwards,
so the reset does not happen on the failure path. -/
theorem execute_summary_flag_counterexample :
    (execute failing_runner [] (enable_circuit_summary initial_state)).1 =
      .error "runner failure" ∧
    (execute failing_runner []
      (enable_circuit_summary initial_state)).2.show_circuit_summary =
      true := by
  decide

/-- Claim C1 (amended): after an execute call in which the runner returns
a result the summary flag reads false; when the runner raises, the
exception propagates with the context untouched, so a flag that was on
stays on. -/
theorem execute_summary_flag_amended {ρ : Type}
    (run_circuits : Circuits → Option Backend → Option ExecuteConfig →
      QJobConfig → Bool → Bool → Except String ρ)
    (circuits : Circuits) (st : AlgoState) :
    (∀ r : ρ, (execute run_circuits circuits st).1 = .ok r →
      (execute run_circuits circuits st).2.show_circuit_summary = false) ∧
    (∀ e : String, (execute run_circuits circuits st).1 = .error e →
      (execute run_circuits circuits st).2 = st) := by
  unfold execute
  cases run_circuits circuits st.backend st.execute_config st.qjob_config
      st.show_circuit_summary st.has_shared_circuits with
  | error e =>
    exact ⟨fun r h => Except.noConfusion h, fun e' h => rfl⟩
  | ok r0 =>
    constructor
    · intro r h
      by_cases hs : st.show_circuit_summary = true
      · rw [if_pos hs]
        rfl
      · rw [if_neg hs]
        simpa using hs
    · intro e' h
      exact Except.noConfusion h

/-- Claim C1 amended witness: with the flag armed and a runner that
returns, the flag reads false after the call. -/
theorem execute_summary_flag_amended_witness :
    (execute ok_runner []
      (enable_circuit_summary initial_state)).2.show_circuit_summary =
      false :=
  (execute_summary_flag_amended ok_runner []
    (enable_circuit_summary initial_state)).1 0 rfl

/-- Claim C9: the random source is created on the first access of the
random property, as the shared numpy source when no seed is stored and as
a private source seeded with the stored seed otherwise; once created it is
cached, and a later access returns the cached source unchanged even after
the seed is changed. -/
theorem random_source_policy (st : AlgoState) (sd : Option Int) :
    (st.random = none → st.random_seed = none →
      random_access st =
        (RandomSource.npRandom,
          { st with random := some RandomSource.npRandom })) ∧
    (∀ s0 : Int, st.random = none → st.random_seed = some s0 →
      random_access st =
        (RandomSource.randomState s0,
          { st with random := some (RandomSource.randomState s0) })) ∧
    (∀ r : RandomSource, st.random = some r →
      random_access (set_random_seed st sd) = (r, set_random_seed st sd)) ∧
    (random_access (random_access st).2).1 = (random_access st).1 := by
  refine ⟨?_, ?_, ?_, ?_⟩
  · intro h1 h2
    simp [random_access, h1, h2]
  · intro s0 h1 h2
    simp [random_access, h1, h2]
  · intro r h1
    simp [random_access, set_random_seed, h1]
  · cases h1 : st.random with
    | some r => simp [random_access, h1]
    | none =>
      cases h2 : st.random_seed with
      | none => simp [random_access, h1, h2]
      | some s0 => simp [random_access, h1, h2]

/-- Claim C9 witness: on a fresh context with no seed, the first access
creates and caches the shared numpy source. -/
theorem random_source_policy_witness :
    random_access initial_state =
      (RandomSource.npRandom,
        { initial_state with random := some RandomSource.npRandom }) :=
  (random_source_policy initial_state none).1 rfl rfl

/-- Claim C10: whether the runner returns or raises, execute leaves every
context field except the summary flag exactly as it was: the backend, the
execute config, the qjob config, the seed, the random source and the
shared-circuits flag are unchanged. -/
theorem execute_frame {ρ : Type}
    (run_circuits : Circuits → Option Backend → Option ExecuteConfig →
      QJobConfig → Bool → Bool → Except String ρ)
    (circuits : Circuits) (st : AlgoState) :
    (execute run_circuits circuits st).2.backend = st.backend ∧
    (execute run_circuits circuits st).2.execute_config =
      st.execute_config ∧
    (execute run_circuits circuits st).2.qjob_config = st.qjob_config ∧
    (execute run_circuits circuits st).2.random_seed = st.random_seed ∧
    (execute run_circuits circuits st).2.random = st.random ∧
    (execute run_circuits circuits st).2.has_shared_circuits =
      st.has_shared_circuits := by
  unfold execute
  cases run_circuits circuits st.backend st.execute_config st.qjob_config
      st.show_circuit_summary st.has_shared_circuits with
  | error e => exact ⟨rfl, rfl, rfl, rfl, rfl, rfl⟩
  | ok r0 =>
    by_cases hs : st.show_circuit_summary = true
    · rw [if_pos hs]
      exact ⟨rfl, rfl, rfl, rfl, rfl, rfl⟩
    · rw [if_neg hs]
      exact ⟨rfl, rfl, rfl, rfl, rfl, rfl⟩

end QuantumAlgorithmSpec
